import Mathlib

/-!
Shallow embedding of the order-placement and inventory core of
`src/streamlit_app.py` (T-Shirt shop).

The SQLite tables PRODUCTS, INVENTORY, CART, ORDERS and ORDER_ITEMS are
embedded as lists of rows; money (REAL columns) is embedded as exact
rationals; SQLite INTEGER columns are embedded as `Int` (stock) and `Nat`
(ids).  The checkout transaction of `customer_checkout` (lines 672-734)
is embedded as a function returning either the committed store or, on the
rolled-back exception path, the original store unchanged, mirroring
`conn.rollback()` which undoes every uncommitted INSERT/UPDATE of the
attempt.
-/

namespace TshirtShop

/-- A row of the PRODUCTS table (columns used by the core). -/
structure ProductRow where
  id : Nat
  name : String
  category : String
  description : String
deriving DecidableEq

/-- A row of the INVENTORY table. -/
structure InventoryRow where
  id : Nat
  product_id : Nat
  size : String
  quantity_in_stock : Int
  manufacturing_cost : Rat
  selling_price : Rat
deriving DecidableEq

/-- A row of the CART table (the surrogate `id` column is irrelevant to the
claims; CART has UNIQUE(user_id, inventory_id)). -/
structure CartRow where
  user_id : String
  inventory_id : Nat
  quantity : Int
deriving DecidableEq

/-- A row of the ORDERS table, in schema column order. -/
structure OrderRow where
  order_id : Nat
  user_id : String
  total_amount : Rat
  tracking_id : String
  order_date : String
  shipping_address : String
  discount_rate : Rat
deriving DecidableEq

/-- A row of the ORDER_ITEMS table. -/
structure OrderItemRow where
  order_id : Nat
  inventory_id : Nat
  quantity : Int
  unit_selling_price : Rat
  unit_manufacturing_cost : Rat
deriving DecidableEq

/-- The persistent state of the SQLite database. -/
structure Store where
  products : List ProductRow
  inventory : List InventoryRow
  cart : List CartRow
  orders : List OrderRow
  order_items : List OrderItemRow
deriving DecidableEq

/-- `SELECT ... FROM INVENTORY WHERE id = ?` (id is the primary key, so the
first matching row is the row). -/
def findInventory : List InventoryRow → Nat → Option InventoryRow
  | [], _ => none
  | i :: rest, iid => if i.id == iid then some i else findInventory rest iid

/-- The `quantity_in_stock` of an inventory row, 0 if the row is absent. -/
def stockOf (inv : List InventoryRow) (iid : Nat) : Int :=
  match findInventory inv iid with
  | some i => i.quantity_in_stock
  | none => 0

/-- The `selling_price` of an inventory row, 0 if the row is absent. -/
def priceOf (inv : List InventoryRow) (iid : Nat) : Rat :=
  match findInventory inv iid with
  | some i => i.selling_price
  | none => 0

/-- `UPDATE INVENTORY SET quantity_in_stock = ? WHERE id = ?`
(line 706 of the source). -/
def updateStock (inv : List InventoryRow) (iid : Nat) (v : Int) : List InventoryRow :=
  inv.map (fun i => if i.id == iid then { i with quantity_in_stock := v } else i)

/-- Whether PRODUCTS holds a row with the given id (inner-join guard). -/
def hasProduct (ps : List ProductRow) (pid : Nat) : Bool :=
  ps.any (fun p => p.id == pid)

/-- `get_customer_catalog` (lines 469-483): PRODUCTS JOIN INVENTORY on
`P.id = I.product_id` filtered by `I.quantity_in_stock > 0`.  The ORDER BY
clause only affects presentation and is not modelled. -/
def get_customer_catalog (st : Store) : List (ProductRow × InventoryRow) :=
  st.products.flatMap (fun p =>
    (st.inventory.filter
      (fun i => i.product_id == p.id && decide (0 < i.quantity_in_stock))).map
      (fun i => (p, i)))

/-- One row of the dataframe returned by `get_user_cart` (the columns the
checkout logic reads). -/
structure CartViewRow where
  inventory_id : Nat
  cart_quantity : Int
  selling_price : Rat
deriving DecidableEq

/-- `get_user_cart` (lines 485-500): CART JOIN INVENTORY JOIN PRODUCTS,
restricted to one user.  INVENTORY.id and PRODUCTS.id are primary keys, so
each cart row contributes at most one joined row. -/
def get_user_cart (st : Store) (user : String) : List CartViewRow :=
  st.cart.filterMap (fun c =>
    if c.user_id == user then
      match findInventory st.inventory c.inventory_id with
      | some i =>
        if hasProduct st.products i.product_id then
          some { inventory_id := c.inventory_id
                 cart_quantity := c.quantity
                 selling_price := i.selling_price }
        else none
      | none => none
    else none)

/-- `SELECT quantity FROM CART WHERE user_id = ? AND inventory_id = ?`
(the pair is UNIQUE, so the first matching row is the row). -/
def findCartRow : List CartRow → String → Nat → Option CartRow
  | [], _, _ => none
  | c :: rest, user, iid =>
    if c.user_id == user && c.inventory_id == iid then some c
    else findCartRow rest user iid

/-- The cart quantity currently recorded for (user, inventory item),
0 when no row exists. -/
def cartQty (cart : List CartRow) (user : String) (iid : Nat) : Int :=
  match findCartRow cart user iid with
  | some c => c.quantity
  | none => 0

/-- `UPDATE CART SET quantity = ? WHERE user_id = ? AND inventory_id = ?`
(line 528 of the source). -/
def setCartQty (cart : List CartRow) (user : String) (iid : Nat) (v : Int) : List CartRow :=
  cart.map (fun c =>
    if c.user_id == user && c.inventory_id == iid then { c with quantity := v } else c)

/-- `add_to_cart` (lines 502-543): checks the requested quantity against
`quantity_in_stock`, then either updates the existing cart row or inserts a
new one; on a failed check (or unknown inventory id) the CART table is left
unchanged. -/
def add_to_cart (st : Store) (user : String) (iid : Nat) (qty : Int) : Store :=
  match findInventory st.inventory iid with
  | none => st
  | some item =>
    let available := item.quantity_in_stock
    match findCartRow st.cart user iid with
    | some c =>
      let newQuantity := c.quantity + qty
      if available < newQuantity then st
      else { st with cart := setCartQty st.cart user iid newQuantity }
    | none =>
      if available < qty then st
      else { st with cart := st.cart ++ [{ user_id := user, inventory_id := iid, quantity := qty }] }

/-- `clear_user_cart` (lines 554-559): `DELETE FROM CART WHERE user_id = ?`. -/
def clear_user_cart (st : Store) (user : String) : Store :=
  { st with cart := st.cart.filter (fun c => !(c.user_id == user)) }

/-- The next AUTOINCREMENT order id (`c.lastrowid` after the ORDERS insert):
one more than every existing order id. -/
def nextOrderId (st : Store) : Nat :=
  (st.orders.map (fun o => o.order_id)).foldr max 0 + 1

/-- The per-item loop of the checkout transaction (lines 690-709): for each
cart row, re-read the inventory row, check `quantity_in_stock >= quantity`,
insert the ORDER_ITEMS row capturing the current selling price and
manufacturing cost, and decrement stock.  A missing inventory row or a
failed stock check raises, i.e. yields `none`. -/
def insert_items (orderId : Nat) (rows : List CartViewRow) (st : Store) : Option Store :=
  match rows with
  | [] => some st
  | r :: rest =>
    match findInventory st.inventory r.inventory_id with
    | some item =>
      if r.cart_quantity ≤ item.quantity_in_stock then
        insert_items orderId rest
          { st with
            order_items := st.order_items ++
              [{ order_id := orderId
                 inventory_id := r.inventory_id
                 quantity := r.cart_quantity
                 unit_selling_price := item.selling_price
                 unit_manufacturing_cost := item.manufacturing_cost }]
            inventory := updateStock st.inventory r.inventory_id
              (item.quantity_in_stock - r.cart_quantity) }
      else none
    | none => none

/-- The delivered-stage transaction of `customer_checkout` (lines 672-734):
re-fetch the user's cart, insert the ORDERS row with the session
`order_total` and `discount_rate`, run the per-item loop, then clear the
cart and commit; on the exception path everything is rolled back and the
store is returned unchanged (flag `false`). -/
def customer_checkout_commit (st : Store) (user : String)
    (order_total discount_rate : Rat)
    (tracking_id order_date shipping_address : String) : Store × Bool :=
  let cart_rows := get_user_cart st user
  let oid := nextOrderId st
  let st1 : Store :=
    { st with orders := st.orders ++
      [{ order_id := oid, user_id := user, total_amount := order_total
         tracking_id := tracking_id, order_date := order_date
         shipping_address := shipping_address, discount_rate := discount_rate }] }
  match insert_items oid cart_rows st1 with
  | some st2 => (clear_user_cart st2 user, true)
  | none => (st, false)

/-- `cart_df['Subtotal'].sum()` (lines 601-604): the cart subtotal,
summing `selling_price * cart_quantity` over the joined cart rows. -/
def cartSubtotal (rows : List CartViewRow) : Rat :=
  (rows.map (fun r => r.selling_price * (r.cart_quantity : Rat))).sum

/-- The payment-form stage of `customer_checkout` (lines 590-669): on an
empty cart it returns without side effects (`none`); otherwise it computes
the session `order_total` from the cart snapshot it was handed, applying the
session discount rate when positive. -/
def customer_checkout_payment (st : Store) (user : String) (discount_rate : Rat) : Option Rat :=
  let cart_df := get_user_cart st user
  if cart_df.isEmpty then none
  else
    let total_pre_discount := cartSubtotal cart_df
    some (if 0 < discount_rate then
            total_pre_discount - total_pre_discount * discount_rate
          else total_pre_discount)

/-- One delivered-stage invocation of `customer_checkout`: the empty-cart
guard at the top of the function (lines 590-596) runs first, then the
transaction. -/
def customer_checkout_delivered (st : Store) (user : String)
    (order_total discount_rate : Rat)
    (tracking_id order_date shipping_address : String) : Store × Bool :=
  let cart_df := get_user_cart st user
  if cart_df.isEmpty then (st, false)
  else customer_checkout_commit st user order_total discount_rate
        tracking_id order_date shipping_address

/-- A whole checkout: the payment-form run is evaluated against the store
`stPay` as it was when the form was submitted, and the delivered run against
the (possibly different) store `stCom` current at commit time.  The session
carries `order_total` and `discount_rate` between the two runs. -/
def checkout_flow (stPay stCom : Store) (user : String) (discount_rate : Rat)
    (tracking_id order_date shipping_address : String) : Store × Bool :=
  match customer_checkout_payment stPay user discount_rate with
  | none => (stCom, false)
  | some total =>
    customer_checkout_delivered stCom user total discount_rate
      tracking_id order_date shipping_address

/-- The checkout-related session state of `st.session_state`. -/
structure Session where
  coupon_code : Option String
  discount_rate : Rat
deriving DecidableEq

/-- The fixed wheel of `spin_the_wheel_logic` (lines 563-570). -/
def spin_options : List (Rat × String) :=
  [(0, "Better luck next time! You won 0% discount."),
   (0, "Better luck next time! You won 0% discount."),
   (0.05, "5% off!"),
   (0.10, "10% discount!"),
   (0.15, "15% discount!"),
   (0.20, "20% discount!")]

/-- The generated coupon label `f"SPIN{int(d*100)}{random.randint(100,999)}"`. -/
def spinCouponCode (d : Rat) (r : Nat) : String :=
  "SPIN" ++ toString d.floor ++ toString r

/-- `spin_the_wheel_logic` (lines 561-585): `random.choice` is modelled by
the index `choice`; a positive draw stores the drawn rate and a generated
coupon code, a zero draw stores rate 0 and code "NONE". -/
def spin_the_wheel_logic (ss : Session) (choice : Fin spin_options.length) (r : Nat) : Session :=
  let chosen_discount := (spin_options.get choice).1
  if 0 < chosen_discount then
    { ss with coupon_code := some (spinCouponCode (chosen_discount * 100) r)
              discount_rate := chosen_discount }
  else
    { ss with coupon_code := some "NONE", discount_rate := 0 }

/-- A resolved discount, as described by the spec (§3 DiscountResult). -/
structure DiscountResult where
  rate : Rat
  code : String
deriving DecidableEq

/-- A coupon record with an activity flag, as described by the spec. -/
structure Coupon where
  code : String
  rate : Rat
  active : Bool
deriving DecidableEq

/-- Modelled from the spec: the repository contains no coupon-code
resolution function (`resolveCoupon` of spec §4.2 is absent from
`src/streamlit_app.py`; the only discount source in the code is the spin
wheel).  Per the spec's words: "looks up an active coupon; unknown/inactive
codes resolve to rate=0, code = NONE — never an error". -/
def resolveCoupon (coupons : List Coupon) (code : String) : DiscountResult :=
  match coupons.find? (fun c => c.active && c.code == code) with
  | some c => { rate := c.rate, code := c.code }
  | none => { rate := 0, code := "NONE" }

/-- The operations a customer session can drive against the store
(cart additions and checkout attempts). -/
inductive Op where
  | addToCart (user : String) (iid : Nat) (qty : Int)
  | checkoutAttempt (user : String) (order_total discount_rate : Rat)
      (tracking_id order_date shipping_address : String)
deriving DecidableEq

/-- Apply one operation to the store. -/
def applyOp (st : Store) (op : Op) : Store :=
  match op with
  | .addToCart u i q => add_to_cart st u i q
  | .checkoutAttempt u t d tr dt sh =>
    (customer_checkout_delivered st u t d tr dt sh).1

/-- Run a sequence of operations. -/
def runOps (st : Store) (ops : List Op) : Store :=
  ops.foldl applyOp st

/-- Every inventory row has nonnegative stock. -/
def NonnegInv (inv : List InventoryRow) : Prop :=
  ∀ i ∈ inv, 0 ≤ i.quantity_in_stock

instance (inv : List InventoryRow) : Decidable (NonnegInv inv) := by
  unfold NonnegInv; infer_instance

/-- The revenue subtotal recorded in ORDER_ITEMS for one order:
`sum(quantity * unit_selling_price)` over its rows. -/
def itemsSubtotal (items : List OrderItemRow) (oid : Nat) : Rat :=
  ((items.filter (fun it => it.order_id == oid)).map
    (fun it => it.unit_selling_price * (it.quantity : Rat))).sum

/-- The subtotal of a list of cart rows priced from a given inventory
snapshot (`selling_price` looked up by inventory id). -/
def rowsPriceSum (inv : List InventoryRow) (rows : List CartViewRow) : Rat :=
  (rows.map (fun r => priceOf inv r.inventory_id * (r.cart_quantity : Rat))).sum

/-- Spec §8 total reconciliation for one persisted order:
`total_amount = subtotal * (1 - discount_rate)` where the subtotal comes
from the order's ORDER_ITEMS rows. -/
def orderReconciled (st : Store) (o : OrderRow) : Prop :=
  o.total_amount = (1 - o.discount_rate) * itemsSubtotal st.order_items o.order_id

instance (st : Store) (o : OrderRow) : Decidable (orderReconciled st o) := by
  unfold orderReconciled; infer_instance

/-! ### Concrete test fixtures

Small concrete stores used to instantiate the theorems below on explicit
inputs (witnesses and counterexamples).  Prices/costs follow the example
scenario of spec §8 in spirit: one product, one inventory row, one
customer cart row. -/

/-- A product row used by the concrete instances. -/
def productA : ProductRow := { id := 1, name := "Classic Navy Tee", category := "T-Shirt", description := "navy tee" }

/-- Inventory row: id 1, stock 1. -/
def invStock1 : InventoryRow :=
  { id := 1, product_id := 1, size := "M", quantity_in_stock := 1,
    manufacturing_cost := 4, selling_price := 10 }

/-- Inventory row: id 1, stock 5, price 10. -/
def invStock5 : InventoryRow :=
  { id := 1, product_id := 1, size := "M", quantity_in_stock := 5,
    manufacturing_cost := 4, selling_price := 10 }

/-- Inventory row: id 1, stock 5, price 15. -/
def invPrice15 : InventoryRow :=
  { id := 1, product_id := 1, size := "M", quantity_in_stock := 5,
    manufacturing_cost := 4, selling_price := 15 }

/-- Inventory row: id 1, stock 3, price 10 (invStock5 after selling 2). -/
def invStock3 : InventoryRow :=
  { id := 1, product_id := 1, size := "M", quantity_in_stock := 3,
    manufacturing_cost := 4, selling_price := 10 }

/-- Inventory row: id 1, stock 4, price 10 (invStock5 after selling 1). -/
def invStock4 : InventoryRow :=
  { id := 1, product_id := 1, size := "M", quantity_in_stock := 4,
    manufacturing_cost := 4, selling_price := 10 }

/-- Cart row: user u wants 2 of item 1. -/
def cartQty2 : CartRow := { user_id := "u", inventory_id := 1, quantity := 2 }

/-- Cart row: user u wants 1 of item 1. -/
def cartQty1 : CartRow := { user_id := "u", inventory_id := 1, quantity := 1 }

/-- Cart row: user u wants 3 of item 1. -/
def cartQty3 : CartRow := { user_id := "u", inventory_id := 1, quantity := 3 }

/-- C1 fixture: stock 1 but the cart asks for 2. -/
def storeC1 : Store :=
  { products := [productA], inventory := [invStock1], cart := [cartQty2],
    orders := [], order_items := [] }

/-- C2 fixture, payment-form-time store: price 10, cart quantity 2. -/
def storeC2pay : Store :=
  { products := [productA], inventory := [invStock5], cart := [cartQty2],
    orders := [], order_items := [] }

/-- C2 fixture, commit-time store: the admin raised the price to 15 after
the payment form was submitted. -/
def storeC2com : Store :=
  { products := [productA], inventory := [invPrice15], cart := [cartQty2],
    orders := [], order_items := [] }

/-- C2 fixture: result of a same-store checkout of storeC2pay at rate 1/2. -/
def storeC2after : Store :=
  { products := [productA], inventory := [invStock3], cart := [],
    orders := [{ order_id := 1, user_id := "u", total_amount := 10,
                 tracking_id := "T", order_date := "D", shipping_address := "A",
                 discount_rate := 1/2 }],
    order_items := [{ order_id := 1, inventory_id := 1, quantity := 2,
                      unit_selling_price := 10, unit_manufacturing_cost := 4 }] }

/-- C3 fixture: stock 5, cart quantity 2. -/
def storeC3 : Store :=
  { products := [productA], inventory := [invStock5], cart := [cartQty2],
    orders := [], order_items := [] }

/-- C3 fixture: storeC3 after a successful checkout at total 20, rate 0. -/
def storeC3after : Store :=
  { products := [productA], inventory := [invStock3], cart := [],
    orders := [{ order_id := 1, user_id := "u", total_amount := 20,
                 tracking_id := "T", order_date := "D", shipping_address := "A",
                 discount_rate := 0 }],
    order_items := [{ order_id := 1, inventory_id := 1, quantity := 2,
                      unit_selling_price := 10, unit_manufacturing_cost := 4 }] }

/-- Inventory row: id 1, stock 3, price 10 (fresh stock for C4). -/
def invC4 : InventoryRow :=
  { id := 1, product_id := 1, size := "M", quantity_in_stock := 3,
    manufacturing_cost := 4, selling_price := 10 }

/-- C4 fixture: stock 3, empty cart. -/
def storeC4 : Store :=
  { products := [productA], inventory := [invC4], cart := [],
    orders := [], order_items := [] }

/-- C4 fixture: an add-to-cart followed by a checkout attempt. -/
def opsC4 : List Op :=
  [Op.addToCart "u" 1 2, Op.checkoutAttempt "u" 20 0 "T" "D" "A"]

/-- C5 fixture, payment-form-time store: cart quantity 1. -/
def storeC5pay : Store :=
  { products := [productA], inventory := [invStock5], cart := [cartQty1],
    orders := [], order_items := [] }

/-- C5 fixture, commit-time store: the customer meanwhile raised the cart
quantity to 3, so the commit-time snapshot differs from the one the total
was computed from. -/
def storeC5com : Store :=
  { products := [productA], inventory := [invStock5], cart := [cartQty3],
    orders := [], order_items := [] }

/-- C5 fixture: result of a same-store checkout of storeC5pay at rate 0. -/
def storeC5after : Store :=
  { products := [productA], inventory := [invStock4], cart := [],
    orders := [{ order_id := 1, user_id := "u", total_amount := 10,
                 tracking_id := "T", order_date := "D", shipping_address := "A",
                 discount_rate := 0 }],
    order_items := [{ order_id := 1, inventory_id := 1, quantity := 1,
                      unit_selling_price := 10, unit_manufacturing_cost := 4 }] }

/-- C7 fixture: one active and one inactive coupon. -/
def couponsC7 : List Coupon :=
  [{ code := "SAVE10", rate := 1/10, active := true },
   { code := "OLD20", rate := 1/5, active := false }]

/-- C8 fixture: the only cart row belongs to another user v. -/
def storeC8 : Store :=
  { products := [productA], inventory := [invStock5],
    cart := [{ user_id := "v", inventory_id := 1, quantity := 1 }],
    orders := [], order_items := [] }

/-- C9 fixture: stock 5, empty cart. -/
def storeC9 : Store :=
  { products := [productA], inventory := [invStock5], cart := [],
    orders := [], order_items := [] }

/-! ### Lookup and update lemmas -/

theorem findInventory_id {inv : List InventoryRow} {j : Nat} {i : InventoryRow}
    (h : findInventory inv j = some i) : i.id = j := by
  induction inv with
  | nil => simp [findInventory] at h
  | cons a t ih =>
    by_cases ha : a.id = j
    · simp [findInventory, ha] at h
      rw [← h]; exact ha
    · simp [findInventory, ha] at h
      exact ih h

theorem findInventory_mem {inv : List InventoryRow} {j : Nat} {i : InventoryRow}
    (h : findInventory inv j = some i) : i ∈ inv := by
  induction inv with
  | nil => simp [findInventory] at h
  | cons a t ih =>
    by_cases ha : a.id = j
    · simp [findInventory, ha] at h
      simp [← h]
    · simp [findInventory, ha] at h
      exact List.mem_cons_of_mem _ (ih h)

theorem findInventory_updateStock (inv : List InventoryRow) (iid : Nat) (v : Int) (j : Nat) :
    findInventory (updateStock inv iid v) j =
      (findInventory inv j).map
        (fun i => if i.id == iid then { i with quantity_in_stock := v } else i) := by
  induction inv with
  | nil => rfl
  | cons a t ih =>
    by_cases hj : a.id = j
    · subst hj
      by_cases hi : a.id = iid
      · subst hi
        simp [updateStock, findInventory]
      · simp [updateStock, findInventory, hi]
    · by_cases hi : a.id = iid
      · subst hi
        simpa [updateStock, findInventory, hj] using ih
      · simpa [updateStock, findInventory, hj, hi] using ih

theorem priceOf_updateStock (inv : List InventoryRow) (iid : Nat) (v : Int) (j : Nat) :
    priceOf (updateStock inv iid v) j = priceOf inv j := by
  unfold priceOf
  rw [findInventory_updateStock]
  cases h : findInventory inv j with
  | none => rfl
  | some i => by_cases hi : i.id = iid <;> simp [hi]

theorem stockOf_updateStock_ne (inv : List InventoryRow) (iid : Nat) (v : Int) (j : Nat)
    (hne : j ≠ iid) : stockOf (updateStock inv iid v) j = stockOf inv j := by
  unfold stockOf
  rw [findInventory_updateStock]
  cases h : findInventory inv j with
  | none => rfl
  | some i =>
    have hij : i.id = j := findInventory_id h
    have : i.id ≠ iid := by rw [hij]; exact hne
    simp [this]

theorem stockOf_updateStock_self {inv : List InventoryRow} {iid : Nat} {i : InventoryRow}
    (h : findInventory inv iid = some i) (v : Int) :
    stockOf (updateStock inv iid v) iid = v := by
  unfold stockOf
  rw [findInventory_updateStock, h]
  have : i.id = iid := findInventory_id h
  simp [this]

theorem NonnegInv_updateStock {inv : List InventoryRow} {iid : Nat} {v : Int}
    (h : NonnegInv inv) (hv : 0 ≤ v) : NonnegInv (updateStock inv iid v) := by
  intro i hi
  rw [updateStock, List.mem_map] at hi
  obtain ⟨a, ha, rfl⟩ := hi
  by_cases hid : a.id = iid
  · simp [hid, hv]
  · simpa [hid] using h a ha

/-! ### Cart lemmas -/

theorem findCartRow_setCartQty (cart : List CartRow) (u : String) (iid : Nat) (v : Int) :
    findCartRow (setCartQty cart u iid v) u iid =
      (findCartRow cart u iid).map (fun c => { c with quantity := v }) := by
  induction cart with
  | nil => rfl
  | cons c t ih =>
    by_cases hc : c.user_id = u ∧ c.inventory_id = iid
    · obtain ⟨h1, h2⟩ := hc
      subst h1; subst h2
      simp [setCartQty, findCartRow]
    · have hb : (c.user_id == u && c.inventory_id == iid) = false := by
        rcases not_and_or.mp hc with h | h <;> simp [h]
      simpa [setCartQty, findCartRow, hb] using ih

theorem findCartRow_append_of_none {cart : List CartRow} {u : String} {iid : Nat}
    (h : findCartRow cart u iid = none) (q : Int) :
    findCartRow (cart ++ [{ user_id := u, inventory_id := iid, quantity := q }]) u iid =
      some { user_id := u, inventory_id := iid, quantity := q } := by
  induction cart with
  | nil => simp [findCartRow]
  | cons c t ih =>
    by_cases hb : (c.user_id == u && c.inventory_id == iid) = true
    · simp [findCartRow, hb] at h
    · rw [Bool.not_eq_true] at hb
      have h' : findCartRow t u iid = none := by simpa [findCartRow, hb] using h
      simpa [findCartRow, hb] using ih h'

theorem cartQty_eq_zero_of_none {cart : List CartRow} {u : String} {iid : Nat}
    (h : findCartRow cart u iid = none) : cartQty cart u iid = 0 := by
  unfold cartQty
  rw [h]

/-! ### Cart view lemmas -/

theorem get_user_cart_mem {st : Store} {user : String} {r : CartViewRow}
    (hr : r ∈ get_user_cart st user) :
    ∃ i, findInventory st.inventory r.inventory_id = some i ∧
      r.selling_price = i.selling_price := by
  unfold get_user_cart at hr
  rw [List.mem_filterMap] at hr
  obtain ⟨c, _, heq⟩ := hr
  by_cases hu : (c.user_id == user) = true
  · rw [if_pos hu] at heq
    cases hfi : findInventory st.inventory c.inventory_id with
    | none => simp only [hfi] at heq; cases heq
    | some i =>
      simp only [hfi] at heq
      by_cases hp : hasProduct st.products i.product_id = true
      · rw [if_pos hp] at heq
        cases heq
        exact ⟨i, hfi, rfl⟩
      · rw [if_neg hp] at heq; cases heq
  · rw [if_neg hu] at heq; cases heq

theorem get_user_cart_eq_nil {st : Store} {user : String}
    (h : st.cart.filter (fun c => c.user_id == user) = []) :
    get_user_cart st user = [] := by
  unfold get_user_cart
  rw [List.filterMap_eq_nil_iff]
  intro c hc
  have hcu : ¬ (c.user_id == user) = true := List.filter_eq_nil_iff.mp h c hc
  simp [hcu]

/-! ### Order id lemmas -/

theorem le_foldr_max {l : List Nat} {a : Nat} (ha : a ∈ l) : a ≤ l.foldr max 0 := by
  induction l with
  | nil => cases ha
  | cons h t ih =>
    rcases List.mem_cons.mp ha with rfl | hm
    · exact le_max_left _ _
    · exact le_trans (ih hm) (le_max_right _ _)

theorem order_id_lt_nextOrderId {st : Store} {o : OrderRow} (ho : o ∈ st.orders) :
    o.order_id < nextOrderId st := by
  have : o.order_id ≤ (st.orders.map (fun o => o.order_id)).foldr max 0 :=
    le_foldr_max (List.mem_map_of_mem _ ho)
  unfold nextOrderId
  omega

/-! ### Transaction-loop lemmas -/

theorem insert_items_nil {oid : Nat} {st st' : Store}
    (h : insert_items oid [] st = some st') : st' = st := by
  simp [insert_items] at h
  exact h.symm

theorem insert_items_cons_some {oid : Nat} {r : CartViewRow} {rest : List CartViewRow}
    {st st' : Store} (h : insert_items oid (r :: rest) st = some st') :
    ∃ item st1, findInventory st.inventory r.inventory_id = some item ∧
      r.cart_quantity ≤ item.quantity_in_stock ∧
      st1.products = st.products ∧
      st1.inventory = updateStock st.inventory r.inventory_id
        (item.quantity_in_stock - r.cart_quantity) ∧
      st1.cart = st.cart ∧
      st1.orders = st.orders ∧
      st1.order_items = st.order_items ++
        [{ order_id := oid, inventory_id := r.inventory_id, quantity := r.cart_quantity,
           unit_selling_price := item.selling_price,
           unit_manufacturing_cost := item.manufacturing_cost }] ∧
      insert_items oid rest st1 = some st' := by
  rw [insert_items] at h
  split at h
  next item heq =>
    split at h
    next hq =>
      exact ⟨item,
        { products := st.products
          inventory := updateStock st.inventory r.inventory_id
            (item.quantity_in_stock - r.cart_quantity)
          cart := st.cart
          orders := st.orders
          order_items := st.order_items ++
            [{ order_id := oid, inventory_id := r.inventory_id, quantity := r.cart_quantity,
               unit_selling_price := item.selling_price,
               unit_manufacturing_cost := item.manufacturing_cost }] },
        heq, hq, rfl, rfl, rfl, rfl, rfl, h⟩
    next hq => cases h
  next heq => cases h

theorem insert_items_orders {oid : Nat} (rows : List CartViewRow) :
    ∀ st st' : Store, insert_items oid rows st = some st' → st'.orders = st.orders := by
  induction rows with
  | nil => intro st st' h; rw [insert_items_nil h]
  | cons r rest ih =>
    intro st st' h
    obtain ⟨item, st1, hfi, hq, -, -, -, ho, -, h'⟩ := insert_items_cons_some h
    rw [ih _ _ h', ho]

theorem insert_items_stockOf_not_mem {oid : Nat} (rows : List CartViewRow) {j : Nat}
    (hj : j ∉ rows.map (fun r => r.inventory_id)) :
    ∀ st st' : Store, insert_items oid rows st = some st' →
      stockOf st'.inventory j = stockOf st.inventory j := by
  induction rows with
  | nil => intro st st' h; rw [insert_items_nil h]
  | cons r rest ih =>
    intro st st' h
    simp only [List.map_cons, List.mem_cons, not_or] at hj
    obtain ⟨hj1, hj2⟩ := hj
    obtain ⟨item, st1, hfi, hq, -, hi, -, -, -, h'⟩ := insert_items_cons_some h
    rw [ih hj2 _ _ h', hi]
    exact stockOf_updateStock_ne _ _ _ _ hj1

theorem insert_items_stockOf_dec {oid : Nat} (rows : List CartViewRow)
    (hnd : (rows.map (fun r => r.inventory_id)).Nodup) :
    ∀ st st' : Store, insert_items oid rows st = some st' →
      ∀ r ∈ rows, stockOf st'.inventory r.inventory_id
        = stockOf st.inventory r.inventory_id - r.cart_quantity := by
  induction rows with
  | nil => intro st st' _ r hr; cases hr
  | cons r0 rest ih =>
    intro st st' h
    obtain ⟨item, st1, hfi, hq, -, hi, -, -, -, h'⟩ := insert_items_cons_some h
    simp only [List.map_cons, List.nodup_cons] at hnd
    obtain ⟨hnmem, hnd'⟩ := hnd
    intro r hr
    rcases List.mem_cons.mp hr with rfl | hm
    · rw [insert_items_stockOf_not_mem rest hnmem _ _ h', hi, stockOf_updateStock_self hfi]
      unfold stockOf
      rw [hfi]
    · have hne : r.inventory_id ≠ r0.inventory_id :=
        fun e => hnmem (e ▸ List.mem_map_of_mem _ hm)
      rw [ih hnd' _ _ h' r hm, hi]
      rw [stockOf_updateStock_ne _ _ _ _ hne]

theorem insert_items_none_of_insufficient {oid : Nat} (rows : List CartViewRow)
    (hnd : (rows.map (fun r => r.inventory_id)).Nodup) :
    ∀ st : Store, (∃ r ∈ rows, stockOf st.inventory r.inventory_id < r.cart_quantity) →
      insert_items oid rows st = none := by
  induction rows with
  | nil =>
    intro st hex
    obtain ⟨r, hr, -⟩ := hex; cases hr
  | cons r0 rest ih =>
    intro st hex
    simp only [List.map_cons, List.nodup_cons] at hnd
    obtain ⟨hnmem, hnd'⟩ := hnd
    rw [insert_items]
    split
    next item heq =>
      by_cases hq : r0.cart_quantity ≤ item.quantity_in_stock
      · rw [if_pos hq]
        apply ih hnd'
        obtain ⟨r, hr, hlt⟩ := hex
        rcases List.mem_cons.mp hr with rfl | hm
        · exfalso
          have hst : stockOf st.inventory r.inventory_id = item.quantity_in_stock := by
            unfold stockOf; rw [heq]
          omega
        · refine ⟨r, hm, ?_⟩
          have hne : r.inventory_id ≠ r0.inventory_id :=
            fun e => hnmem (e ▸ List.mem_map_of_mem _ hm)
          have hred : stockOf (updateStock st.inventory r0.inventory_id
              (item.quantity_in_stock - r0.cart_quantity)) r.inventory_id
              = stockOf st.inventory r.inventory_id :=
            stockOf_updateStock_ne _ _ _ _ hne
          exact hred.symm ▸ hlt
      · rw [if_neg hq]
    next heq => rfl

theorem insert_items_nonneg {oid : Nat} (rows : List CartViewRow) :
    ∀ st st' : Store, insert_items oid rows st = some st' → NonnegInv st.inventory →
      NonnegInv st'.inventory := by
  induction rows with
  | nil =>
    intro st st' h hn
    rw [insert_items_nil h]; exact hn
  | cons r rest ih =>
    intro st st' h hn
    obtain ⟨item, st1, hfi, hq, -, hi, -, -, -, h'⟩ := insert_items_cons_some h
    apply ih _ _ h'
    rw [hi]
    exact NonnegInv_updateStock hn (by omega)

/-! ### Subtotal lemmas -/

theorem itemsSubtotal_append_relevant (items : List OrderItemRow) (it : OrderItemRow)
    (oid : Nat) (hit : it.order_id = oid) :
    itemsSubtotal (items ++ [it]) oid
      = itemsSubtotal items oid + it.unit_selling_price * (it.quantity : Rat) := by
  unfold itemsSubtotal
  rw [List.filter_append, List.map_append, List.sum_append]
  simp [hit]

theorem itemsSubtotal_eq_zero {items : List OrderItemRow} {oid : Nat}
    (h : ∀ it ∈ items, it.order_id ≠ oid) : itemsSubtotal items oid = 0 := by
  unfold itemsSubtotal
  have hf : items.filter (fun it => it.order_id == oid) = [] := by
    rw [List.filter_eq_nil_iff]
    intro it hit
    simp [h it hit]
  rw [hf]
  rfl

theorem rowsPriceSum_updateStock (inv : List InventoryRow) (iid : Nat) (v : Int)
    (rows : List CartViewRow) :
    rowsPriceSum (updateStock inv iid v) rows = rowsPriceSum inv rows := by
  unfold rowsPriceSum
  congr 1
  apply List.map_congr_left
  intro r _
  rw [priceOf_updateStock]

theorem rowsPriceSum_get_user_cart (st : Store) (user : String) :
    rowsPriceSum st.inventory (get_user_cart st user)
      = cartSubtotal (get_user_cart st user) := by
  unfold rowsPriceSum cartSubtotal
  congr 1
  apply List.map_congr_left
  intro r hr
  obtain ⟨i, hfi, hp⟩ := get_user_cart_mem hr
  have : priceOf st.inventory r.inventory_id = i.selling_price := by
    unfold priceOf; rw [hfi]
  rw [this, hp]

theorem insert_items_subtotal {oid : Nat} (rows : List CartViewRow) :
    ∀ st st' : Store, insert_items oid rows st = some st' →
      itemsSubtotal st'.order_items oid
        = itemsSubtotal st.order_items oid + rowsPriceSum st.inventory rows := by
  induction rows with
  | nil =>
    intro st st' h
    rw [insert_items_nil h]
    simp [rowsPriceSum]
  | cons r rest ih =>
    intro st st' h
    obtain ⟨item, st1, hfi, hq, -, hi, -, -, hoi, h'⟩ := insert_items_cons_some h
    have hpr : priceOf st.inventory r.inventory_id = item.selling_price := by
      unfold priceOf; rw [hfi]
    rw [ih _ _ h', hoi, itemsSubtotal_append_relevant _ _ _ rfl, hi, rowsPriceSum_updateStock]
    unfold rowsPriceSum
    simp only [List.map_cons, List.sum_cons]
    rw [hpr]
    ring

/-! ### Checkout-stage lemmas -/

theorem commit_false {st st' : Store} {user : String} {t d : Rat} {tr dt sh : String}
    (h : customer_checkout_commit st user t d tr dt sh = (st', false)) : st' = st := by
  simp only [customer_checkout_commit] at h
  split at h
  next st2 heq => simp at h
  next heq =>
    simp only [Prod.mk.injEq] at h
    exact h.1.symm

theorem commit_true {st st' : Store} {user : String} {t d : Rat} {tr dt sh : String}
    (h : customer_checkout_commit st user t d tr dt sh = (st', true)) :
    ∃ st2, insert_items (nextOrderId st) (get_user_cart st user)
        { products := st.products, inventory := st.inventory, cart := st.cart,
          orders := st.orders ++
            [{ order_id := nextOrderId st, user_id := user, total_amount := t,
               tracking_id := tr, order_date := dt, shipping_address := sh,
               discount_rate := d }],
          order_items := st.order_items } = some st2 ∧
      st' = clear_user_cart st2 user := by
  simp only [customer_checkout_commit] at h
  split at h
  next st2 heq =>
    simp only [Prod.mk.injEq] at h
    exact ⟨st2, heq, h.1.symm⟩
  next heq => simp at h

theorem payment_some_eq {st : Store} {user : String} {d t : Rat}
    (hd : 0 ≤ d) (h : customer_checkout_payment st user d = some t) :
    t = (1 - d) * cartSubtotal (get_user_cart st user) := by
  simp only [customer_checkout_payment] at h
  split at h
  next => cases h
  next =>
    by_cases hdpos : 0 < d
    · rw [if_pos hdpos] at h
      injection h with h
      rw [← h]; ring
    · rw [if_neg hdpos] at h
      injection h with h
      have hzero : d = 0 := le_antisymm (not_lt.mp hdpos) hd
      rw [← h, hzero]; ring

theorem delivered_false {st st' : Store} {user : String} {t d : Rat} {tr dt sh : String}
    (h : customer_checkout_delivered st user t d tr dt sh = (st', false)) : st' = st := by
  simp only [customer_checkout_delivered] at h
  split at h
  next =>
    simp only [Prod.mk.injEq] at h
    exact h.1.symm
  next => exact commit_false h

theorem delivered_true {st st' : Store} {user : String} {t d : Rat} {tr dt sh : String}
    (h : customer_checkout_delivered st user t d tr dt sh = (st', true)) :
    customer_checkout_commit st user t d tr dt sh = (st', true) := by
  simp only [customer_checkout_delivered] at h
  split at h
  next => simp at h
  next => exact h

theorem flow_true {stPay stCom st' : Store} {user : String} {d : Rat} {tr dt sh : String}
    (h : checkout_flow stPay stCom user d tr dt sh = (st', true)) :
    ∃ t, customer_checkout_payment stPay user d = some t ∧
      customer_checkout_commit stCom user t d tr dt sh = (st', true) := by
  simp only [checkout_flow] at h
  split at h
  next heq => simp at h
  next t heq => exact ⟨t, heq, delivered_true h⟩

/-! ### Claim theorems -/

/-- Claim C1: if a checkout commit fails because some cart line's requested
quantity exceeds the item's available stock, the whole transaction is rolled
back: afterwards no ORDERS row, no ORDER_ITEMS row and no stock decrement of
the attempt persists — the returned store is exactly the store before the
attempt.  The Nodup hypothesis is CART's UNIQUE(user_id, inventory_id)
constraint. -/
theorem checkout_insufficient_stock_atomic
    (st : Store) (user : String) (t d : Rat) (tr dt sh : String)
    (hnd : ((get_user_cart st user).map (fun r => r.inventory_id)).Nodup)
    (hex : ∃ r ∈ get_user_cart st user,
      stockOf st.inventory r.inventory_id < r.cart_quantity) :
    customer_checkout_commit st user t d tr dt sh = (st, false) := by
  rcases hres : customer_checkout_commit st user t d tr dt sh with ⟨st', b⟩
  cases b with
  | true =>
    exfalso
    obtain ⟨st2, hins, -⟩ := commit_true hres
    have hnone := @insert_items_none_of_insufficient (nextOrderId st)
      (get_user_cart st user) hnd
      { products := st.products, inventory := st.inventory, cart := st.cart,
        orders := st.orders ++
          [{ order_id := nextOrderId st, user_id := user, total_amount := t,
             tracking_id := tr, order_date := dt, shipping_address := sh,
             discount_rate := d }],
        order_items := st.order_items } hex
    rw [hnone] at hins
    cases hins
  | false => rw [commit_false hres]

/-- Concrete instance of C1: stock 1, cart quantity 2, commit fails and
leaves the store untouched. -/
theorem checkout_insufficient_stock_atomic_witness :
    customer_checkout_commit storeC1 "u" 20 0 "T" "D" "A" = (storeC1, false) :=
  checkout_insufficient_stock_atomic storeC1 "u" 20 0 "T" "D" "A"
    (by decide) (by decide)

/-- Claim C3: a successful checkout commit decrements the stock of each
inventory item referenced by the cart by exactly the quantity ordered for
that item (one cart row per (user, item) by CART's UNIQUE constraint). -/
theorem checkout_stock_conservation
    (st : Store) (user : String) (t d : Rat) (tr dt sh : String) (st' : Store)
    (hnd : ((get_user_cart st user).map (fun r => r.inventory_id)).Nodup)
    (hs : customer_checkout_commit st user t d tr dt sh = (st', true)) :
    ∀ r ∈ get_user_cart st user,
      stockOf st'.inventory r.inventory_id
        = stockOf st.inventory r.inventory_id - r.cart_quantity := by
  obtain ⟨st2, hins, hclear⟩ := commit_true hs
  intro r hr
  rw [hclear]
  exact insert_items_stockOf_dec _ hnd _ _ hins r hr

/-- Concrete instance of C3: stock 5, quantity 2, stock after the commit
is 3. -/
theorem checkout_stock_conservation_witness :
    stockOf storeC3after.inventory 1 = stockOf storeC3.inventory 1 - 2 :=
  checkout_stock_conservation storeC3 "u" 20 0 "T" "D" "A" storeC3after
    (by decide)
    (by simp [customer_checkout_commit, get_user_cart, storeC3, storeC3after, productA,
          invStock5, invStock3, cartQty2, findInventory, hasProduct, insert_items,
          nextOrderId, updateStock, clear_user_cart])
    { inventory_id := 1, cart_quantity := 2, selling_price := 10 }
    (by simp [get_user_cart, storeC3, productA, invStock5, cartQty2, findInventory,
          hasProduct])

/-- Claim C8: a checkout requested by a user whose cart has no rows falls
back without side effects: the payment stage refuses (`none`) and a
delivered-stage run creates no order, writes no order items and decrements
no stock — the store is returned unchanged. -/
theorem empty_cart_checkout_noop
    (st : Store) (user : String) (t d : Rat) (tr dt sh : String)
    (h : st.cart.filter (fun c => c.user_id == user) = []) :
    customer_checkout_payment st user d = none ∧
    customer_checkout_delivered st user t d tr dt sh = (st, false) := by
  have hempty : get_user_cart st user = [] := get_user_cart_eq_nil h
  constructor
  · simp [customer_checkout_payment, hempty]
  · simp [customer_checkout_delivered, hempty]

/-- Concrete instance of C8: the cart holds only another user's row, so
user u's checkout is a no-op. -/
theorem empty_cart_checkout_noop_witness :
    customer_checkout_payment storeC8 "u" 0 = none ∧
    customer_checkout_delivered storeC8 "u" 20 0 "T" "D" "A" = (storeC8, false) :=
  empty_cart_checkout_noop storeC8 "u" 20 0 "T" "D" "A" (by decide)

theorem add_to_cart_inventory (st : Store) (user : String) (iid : Nat) (qty : Int) :
    (add_to_cart st user iid qty).inventory = st.inventory := by
  simp only [add_to_cart]
  split
  · rfl
  · split
    · split <;> rfl
    · split <;> rfl

theorem commit_nonneg {st st' : Store} {user : String} {t d : Rat} {tr dt sh : String}
    {b : Bool} (h : customer_checkout_commit st user t d tr dt sh = (st', b))
    (hn : NonnegInv st.inventory) : NonnegInv st'.inventory := by
  cases b with
  | false => rw [commit_false h]; exact hn
  | true =>
    obtain ⟨st2, hins, hclear⟩ := commit_true h
    have h2 : NonnegInv st2.inventory := insert_items_nonneg _ _ _ hins hn
    rw [hclear]
    exact h2

theorem applyOp_nonneg (st : Store) (op : Op) (hn : NonnegInv st.inventory) :
    NonnegInv (applyOp st op).inventory := by
  cases op with
  | addToCart u i q =>
    have h := add_to_cart_inventory st u i q
    simp only [applyOp, h]
    exact hn
  | checkoutAttempt u t d tr dt sh =>
    rcases hres : customer_checkout_delivered st u t d tr dt sh with ⟨st', b⟩
    have hst : applyOp st (Op.checkoutAttempt u t d tr dt sh) = st' := by
      simp [applyOp, hres]
    rw [hst]
    cases b with
    | false => rw [delivered_false hres]; exact hn
    | true => exact commit_nonneg (delivered_true hres) hn

/-- Claim C4: under any sequence of cart additions and checkout attempts,
stock never goes negative.  Since the operation list is universally
quantified, the state after every prefix — i.e. every observable point —
satisfies the invariant. -/
theorem runOps_no_negative_stock
    (ops : List Op) (st : Store) (hn : NonnegInv st.inventory) :
    NonnegInv (runOps st ops).inventory := by
  induction ops generalizing st with
  | nil => exact hn
  | cons op rest ih => exact ih _ (applyOp_nonneg st op hn)

/-- Concrete instance of C4: an add-to-cart of 2 units and a checkout
attempt on a 3-unit stock keep the stock nonnegative. -/
theorem runOps_no_negative_stock_witness :
    NonnegInv (runOps storeC4 opsC4).inventory :=
  runOps_no_negative_stock opsC4 storeC4 (by decide)

/-- Claim C9: `add_to_cart` never records a cart quantity exceeding the
stock observed at call time: an unknown item or a request that would push
the (user, item) quantity above `quantity_in_stock` leaves the CART table
unchanged; otherwise the row afterwards holds exactly the previous quantity
plus the requested quantity. -/
theorem add_to_cart_spec (st : Store) (user : String) (iid : Nat) (qty : Int) :
    (findInventory st.inventory iid = none → add_to_cart st user iid qty = st) ∧
    (∀ item, findInventory st.inventory iid = some item →
      (item.quantity_in_stock < cartQty st.cart user iid + qty →
        add_to_cart st user iid qty = st) ∧
      (cartQty st.cart user iid + qty ≤ item.quantity_in_stock →
        cartQty (add_to_cart st user iid qty).cart user iid
          = cartQty st.cart user iid + qty)) := by
  refine ⟨fun h => by simp [add_to_cart, h], fun item hitem => ⟨?_, ?_⟩⟩
  · intro hover
    cases hc : findCartRow st.cart user iid with
    | some c =>
      have hq : cartQty st.cart user iid = c.quantity := by unfold cartQty; rw [hc]
      rw [hq] at hover
      simp [add_to_cart, hitem, hc, hover]
    | none =>
      have hq : cartQty st.cart user iid = 0 := by unfold cartQty; rw [hc]
      rw [hq] at hover
      have hover2 : item.quantity_in_stock < qty := by omega
      simp [add_to_cart, hitem, hc, hover2]
  · intro hle
    cases hc : findCartRow st.cart user iid with
    | some c =>
      have hq : cartQty st.cart user iid = c.quantity := by unfold cartQty; rw [hc]
      rw [hq] at hle ⊢
      have hnot : ¬ item.quantity_in_stock < c.quantity + qty := by omega
      simp only [add_to_cart, hitem, hc, if_neg hnot]
      show cartQty (setCartQty st.cart user iid (c.quantity + qty)) user iid
        = c.quantity + qty
      simp [cartQty, findCartRow_setCartQty, hc]
    | none =>
      have hq : cartQty st.cart user iid = 0 := by unfold cartQty; rw [hc]
      rw [hq] at hle ⊢
      have hnot : ¬ item.quantity_in_stock < qty := by omega
      simp only [add_to_cart, hitem, hc, if_neg hnot]
      show cartQty (st.cart ++ [{ user_id := user, inventory_id := iid, quantity := qty }])
          user iid = 0 + qty
      simp [cartQty, findCartRow_append_of_none hc qty]

/-- Concrete instance of C9: adding 3 units of a 5-unit item to an empty
cart records exactly quantity 3. -/
theorem add_to_cart_spec_witness :
    cartQty (add_to_cart storeC9 "u" 1 3).cart "u" 1 = cartQty storeC9.cart "u" 1 + 3 :=
  ((add_to_cart_spec storeC9 "u" 1 3).2 invStock5 (by decide)).2 (by decide)

/-- Claim C10: the customer catalog contains exactly the joined
product/inventory rows with strictly positive stock; a zero-stock inventory
row never appears. -/
theorem get_customer_catalog_mem (st : Store) (p : ProductRow) (i : InventoryRow) :
    (p, i) ∈ get_customer_catalog st ↔
      p ∈ st.products ∧ i ∈ st.inventory ∧ i.product_id = p.id ∧
        0 < i.quantity_in_stock := by
  unfold get_customer_catalog
  rw [List.mem_flatMap]
  constructor
  · rintro ⟨p', hp', hmem⟩
    rw [List.mem_map] at hmem
    obtain ⟨i', hi', heq⟩ := hmem
    rw [List.mem_filter] at hi'
    obtain ⟨him, hcond⟩ := hi'
    injection heq with h1 h2
    subst h1
    subst h2
    simp only [Bool.and_eq_true, beq_iff_eq, decide_eq_true_eq] at hcond
    exact ⟨hp', him, hcond.1, hcond.2⟩
  · rintro ⟨hp, hi, hpid, hq⟩
    refine ⟨p, hp, ?_⟩
    rw [List.mem_map]
    refine ⟨i, ?_, rfl⟩
    rw [List.mem_filter]
    exact ⟨hi, by simp [hpid, hq]⟩

/-- Claim C6: every possible spin outcome stores a discount rate in [0, 1),
and the session rate after a spin is exactly the single drawn tier (the
stored `discount_rate` is the only discount source an order consumes). -/
theorem spin_the_wheel_rate_bounds (ss : Session) (choice : Fin spin_options.length)
    (r : Nat) :
    0 ≤ (spin_the_wheel_logic ss choice r).discount_rate ∧
    (spin_the_wheel_logic ss choice r).discount_rate < 1 ∧
    (spin_the_wheel_logic ss choice r).discount_rate = (spin_options.get choice).1 := by
  fin_cases choice <;> refine ⟨?_, ?_, ?_⟩ <;>
    norm_num [spin_the_wheel_logic, spin_options]

/-- Claim C7 (spec-modelled `resolveCoupon`): when no active coupon carries
the requested code, resolution succeeds with the zero discount and code
"NONE"; it is a total function, never an error. -/
theorem resolveCoupon_unknown_or_inactive (coupons : List Coupon) (code : String)
    (h : ∀ c ∈ coupons, c.active = true → c.code ≠ code) :
    resolveCoupon coupons code = { rate := 0, code := "NONE" } := by
  have hnone : coupons.find? (fun c => c.active && c.code == code) = none := by
    rw [List.find?_eq_none]
    intro c hc
    simp only [Bool.and_eq_true, beq_iff_eq, not_and]
    exact h c hc
  simp [resolveCoupon, hnone]

/-- Concrete instance of C7: a code matching no active coupon resolves to
the zero discount. -/
theorem resolveCoupon_unknown_or_inactive_witness :
    resolveCoupon couponsC7 "WELCOME5" = { rate := 0, code := "NONE" } :=
  resolveCoupon_unknown_or_inactive couponsC7 "WELCOME5" (by decide)

/-- C2 as stated is false on the code: the persisted `total_amount` is the
session total computed at payment-form time, while ORDER_ITEMS capture
commit-time prices.  With the price raised from 10 to 15 between the two
stages, the stored total 20 differs from
`(1 - discount_rate) * sum(quantity * unit_selling_price) = 30`. -/
theorem total_reconciliation_cex :
    ¬ ∀ o ∈ (checkout_flow storeC2pay storeC2com "u" 0 "T" "D" "A").1.orders,
        orderReconciled (checkout_flow storeC2pay storeC2com "u" 0 "T" "D" "A").1 o := by
  simp [checkout_flow, customer_checkout_payment, customer_checkout_delivered,
        customer_checkout_commit, get_user_cart, storeC2pay, storeC2com, productA,
        invStock5, invPrice15, cartQty2, findInventory, hasProduct, insert_items,
        cartSubtotal, nextOrderId, updateStock, clear_user_cart,
        orderReconciled, itemsSubtotal]

/-- Claim C2 (amended): when the cart contents and inventory prices at
commit time are the ones the payment form priced (the flow runs against one
store), the discount rate is the nonnegative one the app resolved, and the
new order id is fresh among ORDER_ITEMS, every order persisted by the
checkout reconciles exactly:
`total_amount = (1 - discount_rate) * sum(quantity * unit_selling_price)`
over its ORDER_ITEMS rows. -/
theorem total_reconciliation_stable
    (st st' : Store) (user : String) (d : Rat) (tr dt sh : String)
    (hd : 0 ≤ d)
    (hfresh : ∀ it ∈ st.order_items, it.order_id ≠ nextOrderId st)
    (hs : checkout_flow st st user d tr dt sh = (st', true)) :
    ∀ o ∈ st'.orders, o.order_id = nextOrderId st → orderReconciled st' o := by
  obtain ⟨t, hpay, hcom⟩ := flow_true hs
  obtain ⟨st2, hins, hclear⟩ := commit_true hcom
  have horders : st2.orders = st.orders ++
      [{ order_id := nextOrderId st, user_id := user, total_amount := t,
         tracking_id := tr, order_date := dt, shipping_address := sh,
         discount_rate := d }] := insert_items_orders _ _ _ hins
  have hitems0 := insert_items_subtotal (get_user_cart st user) _ _ hins
  have hitems : itemsSubtotal st2.order_items (nextOrderId st)
      = itemsSubtotal st.order_items (nextOrderId st)
        + rowsPriceSum st.inventory (get_user_cart st user) := hitems0
  have hz : itemsSubtotal st.order_items (nextOrderId st) = 0 :=
    itemsSubtotal_eq_zero hfresh
  have hsub : itemsSubtotal st2.order_items (nextOrderId st)
      = cartSubtotal (get_user_cart st user) := by
    rw [hitems, hz, zero_add, rowsPriceSum_get_user_cart]
  intro o ho hoid
  have ho2 : o ∈ st.orders ++
      [{ order_id := nextOrderId st, user_id := user, total_amount := t,
         tracking_id := tr, order_date := dt, shipping_address := sh,
         discount_rate := d }] := by
    rw [← horders]
    rw [hclear] at ho
    exact ho
  rcases List.mem_append.mp ho2 with hold | hnew
  · exact absurd hoid (Nat.ne_of_lt (order_id_lt_nextOrderId hold))
  · have heq : o
        = { order_id := nextOrderId st, user_id := user, total_amount := t,
            tracking_id := tr, order_date := dt, shipping_address := sh,
            discount_rate := d } := by simpa using hnew
    subst heq
    unfold orderReconciled
    show t = (1 - d) * itemsSubtotal st'.order_items (nextOrderId st)
    have hoi : st'.order_items = st2.order_items := by rw [hclear]; rfl
    rw [hoi, hsub]
    exact payment_some_eq hd hpay

/-- Concrete instance of amended C2: a same-store checkout at rate 1/2
produces an order whose stored total 10 equals (1 - 1/2) * 20. -/
theorem total_reconciliation_stable_witness :
    orderReconciled storeC2after
      { order_id := 1, user_id := "u", total_amount := 10,
        tracking_id := "T", order_date := "D", shipping_address := "A",
        discount_rate := 1/2 } :=
  total_reconciliation_stable storeC2pay storeC2after "u" (1/2) "T" "D" "A"
    (by norm_num) (by decide)
    (by
      have hhalf : (0 : ℚ) < 1/2 := by norm_num
      simp [checkout_flow, customer_checkout_payment, customer_checkout_delivered,
            customer_checkout_commit, get_user_cart, storeC2pay, storeC2after, productA,
            invStock5, invStock3, cartQty2, findInventory, hasProduct, insert_items,
            cartSubtotal, nextOrderId, updateStock, clear_user_cart, hhalf]
      norm_num)
    { order_id := 1, user_id := "u", total_amount := 10,
      tracking_id := "T", order_date := "D", shipping_address := "A",
      discount_rate := 1/2 }
    (by simp [storeC2after])
    (by decide)

/-- C5 as stated is false on the code: raising the cart quantity from 1 to 3
between the payment form and the commit leaves the persisted total at the
stale value 10 while the commit-time snapshot subtotal is 30. -/
theorem checkout_total_stale_cex :
    ¬ ∀ o ∈ (checkout_flow storeC5pay storeC5com "u" 0 "T" "D" "A").1.orders,
        o.total_amount
          = (1 - o.discount_rate) * cartSubtotal (get_user_cart storeC5com "u") := by
  simp [checkout_flow, customer_checkout_payment, customer_checkout_delivered,
        customer_checkout_commit, get_user_cart, storeC5pay, storeC5com, productA,
        invStock5, cartQty1, cartQty3, findInventory, hasProduct, insert_items,
        cartSubtotal, nextOrderId, updateStock, clear_user_cart]

/-- Claim C5 (amended): the persisted total applies the discount to the
subtotal of the cart snapshot priced when the payment form was submitted —
the session value — not to the commit-time snapshot; the two agree only when
nothing changed in between. -/
theorem checkout_total_from_payment_snapshot
    (stPay stCom st' : Store) (user : String) (d : Rat) (tr dt sh : String)
    (hd : 0 ≤ d)
    (hs : checkout_flow stPay stCom user d tr dt sh = (st', true)) :
    st'.orders = stCom.orders ++
      [{ order_id := nextOrderId stCom, user_id := user,
         total_amount := (1 - d) * cartSubtotal (get_user_cart stPay user),
         tracking_id := tr, order_date := dt, shipping_address := sh,
         discount_rate := d }] := by
  obtain ⟨t, hpay, hcom⟩ := flow_true hs
  obtain ⟨st2, hins, hclear⟩ := commit_true hcom
  have horders : st2.orders = stCom.orders ++
      [{ order_id := nextOrderId stCom, user_id := user, total_amount := t,
         tracking_id := tr, order_date := dt, shipping_address := sh,
         discount_rate := d }] := insert_items_orders _ _ _ hins
  have hst : st'.orders = st2.orders := by rw [hclear]; rfl
  rw [hst, horders, payment_some_eq hd hpay]

/-- Concrete instance of amended C5: a same-store checkout at rate 0 stores
exactly (1 - 0) times the payment-form subtotal. -/
theorem checkout_total_from_payment_snapshot_witness :
    storeC5after.orders = storeC5pay.orders ++
      [{ order_id := nextOrderId storeC5pay, user_id := "u",
         total_amount := (1 - 0) * cartSubtotal (get_user_cart storeC5pay "u"),
         tracking_id := "T", order_date := "D", shipping_address := "A",
         discount_rate := 0 }] :=
  checkout_total_from_payment_snapshot storeC5pay storeC5pay storeC5after "u" 0 "T" "D" "A"
    (by norm_num)
    (by simp [checkout_flow, customer_checkout_payment, customer_checkout_delivered,
          customer_checkout_commit, get_user_cart, storeC5pay, storeC5after, productA,
          invStock5, invStock4, cartQty1, findInventory, hasProduct, insert_items,
          cartSubtotal, nextOrderId, updateStock, clear_user_cart])

end TshirtShop
